import Mathlib

/-!
Shallow embedding of the omenix fan-control daemon (`src/bin/omenix-daemon.rs`
and `src/types.rs`).

The daemon's shared `Arc<Mutex<DaemonState>>` is modelled as explicit state
passing.  External effects are passed in as parameters:

* the outcome of `read_temperature()` is an `Except String Int`
  (millidegrees Celsius on success);
* the outcome of `write_fan_mode` / `write_performance_mode` is a `Bool`
  (`true` = the write succeeded);
* `Instant::now()` is a `Nat` timestamp in seconds, so that
  `last_write.elapsed() >= Duration::from_secs(interval)` becomes
  `interval ≤ now - last_write` (truncated `Nat` subtraction matches the
  saturating behaviour of `Instant::elapsed`).

Hardware writes performed by the monitor loop are additionally recorded in a
trace (`List HardwareFanMode`) so that properties about "no repeated writes"
can be stated.
-/

set_option maxHeartbeats 1000000

namespace Omenix

/-- Rust enum `FanMode` from `src/types.rs`: user intent, tri-state. -/
inductive FanMode
  | Max
  | Auto
  | Bios
deriving DecidableEq, Repr

/-- The `Display` impl for `FanMode` from `src/types.rs`. -/
def FanMode.toDisplay : FanMode → String
  | FanMode.Max => "Max"
  | FanMode.Auto => "Auto"
  | FanMode.Bios => "Bios"

/-- Rust `str::to_lowercase` as used by the two `FromStr` impls, modelled as a
character-wise lowering of the string's data (the tokens compared against are
ASCII, where this agrees with Rust's Unicode lowercasing). -/
def lowerString (s : String) : String :=
  String.mk (s.data.map Char.toLower)

/-- The `FromStr` impl for `FanMode` from `src/types.rs`: lowercases the token and
matches `"max"`, `"auto"`, `"bios"`. -/
def FanMode.fromStr (s : String) : Except String FanMode :=
  let l := lowerString s
  if l = "max" then Except.ok FanMode.Max
  else if l = "auto" then Except.ok FanMode.Auto
  else if l = "bios" then Except.ok FanMode.Bios
  else Except.error ("Invalid fan mode: " ++ s)

/-- Rust enum `HardwareFanMode` from `src/types.rs`: what is actually written to the
device (`"0"` for `Max`, `"2"` for `Bios`). -/
inductive HardwareFanMode
  | Max
  | Bios
deriving DecidableEq, Repr

/-- The Debug rendering of `HardwareFanMode`, as used by the `status`
response. -/
def HardwareFanMode.toDebug : HardwareFanMode → String
  | HardwareFanMode.Max => "Max"
  | HardwareFanMode.Bios => "Bios"

/-- Rust enum `PerformanceMode` from `src/types.rs`. -/
inductive PerformanceMode
  | Balanced
  | Performance
deriving DecidableEq, Repr

/-- The `Display` impl for `PerformanceMode` from `src/types.rs` (lowercase). -/
def PerformanceMode.toDisplay : PerformanceMode → String
  | PerformanceMode.Balanced => "balanced"
  | PerformanceMode.Performance => "performance"

/-- The `FromStr` impl for `PerformanceMode` from `src/types.rs`. -/
def PerformanceMode.fromStr (s : String) : Except String PerformanceMode :=
  let l := lowerString s
  if l = "balanced" then Except.ok PerformanceMode.Balanced
  else if l = "performance" then Except.ok PerformanceMode.Performance
  else Except.error ("Invalid performance mode: " ++ s)

/-- Rust struct `AppConfig` from `src/bin/omenix-daemon.rs` (the fields the control loop
reads).  Temperature thresholds are `i32` degrees Celsius, counters are `u32`
limits, intervals are `u64` seconds. -/
structure AppConfig where
  temp_threshold_high : Int
  temp_threshold_low : Int
  consecutive_high_temp_limit : Nat
  consecutive_low_temp_limit : Nat
  temp_check_interval : Nat
  max_fan_write_interval : Option Nat
deriving DecidableEq, Repr

/-- The clap defaults of `AppConfig`: 75 / 70 / 3 / 3 / 5 / None. -/
def defaultConfig : AppConfig :=
  { temp_threshold_high := 75
    temp_threshold_low := 70
    consecutive_high_temp_limit := 3
    consecutive_low_temp_limit := 3
    temp_check_interval := 5
    max_fan_write_interval := none }

/-- Rust struct `DaemonState` from `src/bin/omenix-daemon.rs`. -/
structure DaemonState where
  user_mode : FanMode
  actual_mode : HardwareFanMode
  performance_mode : PerformanceMode
  last_fan_write : Option Nat
  consecutive_high_temps : Nat
  consecutive_low_temps : Nat
  temp_monitoring_active : Bool
  current_temp : Option Int
  config : AppConfig
deriving DecidableEq, Repr

/-- Constructor `DaemonState::new` (lines 55-71 of `omenix-daemon.rs`). -/
def DaemonState.new (config : AppConfig) : DaemonState :=
  { user_mode := FanMode.Auto
    actual_mode := HardwareFanMode.Bios
    performance_mode := PerformanceMode.Performance
    last_fan_write := none
    consecutive_high_temps := 0
    consecutive_low_temps := 0
    temp_monitoring_active := false
    current_temp := none
    config := config }

/-- Function `set_fan_mode` (lines 197-256 of `omenix-daemon.rs`).  The state is
mutated first (under the lock), then `write_fan_mode` is attempted; the
return value is the command's `Result<(), String>`.  `sensor` is the result
of the `read_temperature()` call made on the `Auto` path. -/
def set_fan_mode (st : DaemonState) (new_mode : FanMode)
    (sensor : Except String Int) (now : Nat) (writeOk : Bool) :
    DaemonState × Except String Unit :=
  let temp_threshold := st.config.temp_threshold_high * 1000
  let actual_mode_to_set :=
    match new_mode with
    | FanMode.Max => HardwareFanMode.Max
    | FanMode.Auto =>
        match sensor with
        | Except.ok temp =>
            if temp > temp_threshold then HardwareFanMode.Max
            else HardwareFanMode.Bios
        | Except.error _ => HardwareFanMode.Bios
    | FanMode.Bios => HardwareFanMode.Bios
  let st1 :=
    { st with
        user_mode := new_mode
        actual_mode := actual_mode_to_set
        consecutive_high_temps := 0 }
  let st2 :=
    match new_mode with
    | FanMode.Max =>
        { st1 with last_fan_write := some now, temp_monitoring_active := false }
    | FanMode.Auto =>
        { st1 with temp_monitoring_active := true, last_fan_write := none }
    | FanMode.Bios =>
        { st1 with temp_monitoring_active := false, last_fan_write := none }
  if writeOk then (st2, Except.ok ())
  else (st2, Except.error ("Failed to write fan mode"))

/-- Function `set_performance_mode` (lines 258-276 of `omenix-daemon.rs`): state is
updated, then `write_performance_mode` is attempted. -/
def set_performance_mode (st : DaemonState) (new_mode : PerformanceMode)
    (writeOk : Bool) : DaemonState × Except String Unit :=
  let st1 := { st with performance_mode := new_mode }
  if writeOk then (st1, Except.ok ())
  else (st1, Except.error ("Failed to write performance mode"))

/-- Flag `should_handle_max_mode` (lines 313-326 of `omenix-daemon.rs`): under
user-mode `Max`, the periodic rewrite is due when an interval is configured
and either it has elapsed since `last_fan_write` or no prior write exists. -/
def should_handle_max_mode (st : DaemonState) (now : Nat) : Bool :=
  if st.user_mode = FanMode.Max then
    match st.config.max_fan_write_interval with
    | some interval =>
        match st.last_fan_write with
        | some last_write => decide (interval ≤ now - last_write)
        | none => true
    | none => false
  else false

/-- Flag `should_handle_auto_mode` (lines 328-330 of `omenix-daemon.rs`). -/
def should_handle_auto_mode (st : DaemonState) : Bool :=
  if st.user_mode = FanMode.Auto then st.temp_monitoring_active else false

/-- The user-`Max` periodic rewrite block (lines 334-344): attempt the write;
commit timestamp and hardware mode only on success. -/
def handle_max_mode (st : DaemonState) (now : Nat) (writeOk : Bool) :
    DaemonState × List HardwareFanMode :=
  if writeOk then
    ({ st with last_fan_write := some now, actual_mode := HardwareFanMode.Max },
     [HardwareFanMode.Max])
  else (st, [HardwareFanMode.Max])

/-- The `Auto`-mode branch while not resolved to `Max` (lines 357-385):
count consecutive highs and switch to `Max` at the limit. -/
def auto_tick_bios (st : DaemonState) (current_temp : Int) (now : Nat)
    (writeOk : Bool) : DaemonState × List HardwareFanMode :=
  if current_temp > st.config.temp_threshold_high * 1000 then
    let st := { st with consecutive_high_temps := st.consecutive_high_temps + 1 }
    if st.consecutive_high_temps ≥ st.config.consecutive_high_temp_limit then
      if writeOk then
        ({ st with actual_mode := HardwareFanMode.Max,
                   last_fan_write := some now,
                   consecutive_high_temps := 0 },
         [HardwareFanMode.Max])
      else (st, [HardwareFanMode.Max])
    else (st, [])
  else
    if st.consecutive_high_temps > 0 then
      ({ st with consecutive_high_temps := 0 }, [])
    else (st, [])

/-- Flag `should_rewrite_max` (lines 388-397): under `Auto` resolved to `Max`,
the rewrite is due only when an interval is configured, a prior write exists,
and the interval has elapsed (unlike `should_handle_max_mode`, a missing
`last_fan_write` does not trigger it). -/
def should_rewrite_max (st : DaemonState) (now : Nat) : Bool :=
  match st.config.max_fan_write_interval with
  | some interval =>
      match st.last_fan_write with
      | some last_write => decide (interval ≤ now - last_write)
      | none => false
  | none => false

/-- The `Auto`-mode branch while resolved to `Max` (lines 386-438): honor the
rewrite rule first (and `continue`), else count consecutive lows and switch
back to `Bios` at the limit. -/
def auto_tick_max (st : DaemonState) (current_temp : Int) (now : Nat)
    (writeOk : Bool) : DaemonState × List HardwareFanMode :=
  if should_rewrite_max st now then
    -- `continue`: the rest of the iteration is skipped whether or not the
    -- write succeeded
    if writeOk then
      ({ st with last_fan_write := some now }, [HardwareFanMode.Max])
    else (st, [HardwareFanMode.Max])
  else
    if current_temp ≤ st.config.temp_threshold_low * 1000 then
      let st := { st with consecutive_low_temps := st.consecutive_low_temps + 1 }
      if st.consecutive_low_temps ≥ st.config.consecutive_low_temp_limit then
        if writeOk then
          ({ st with actual_mode := HardwareFanMode.Bios,
                     last_fan_write := none,
                     consecutive_low_temps := 0 },
           [HardwareFanMode.Bios])
        else (st, [HardwareFanMode.Bios])
      else (st, [])
    else
      if st.consecutive_low_temps > 0 then
        ({ st with consecutive_low_temps := 0 }, [])
      else (st, [])

/-- One iteration of the temperature-monitor loop body
(lines 286-440 of `omenix-daemon.rs`), after the sleep.  Returns the new
state together with the trace of `write_fan_mode` calls attempted during the
tick (in order, whether or not they succeeded).  `sensor` is the outcome of
`read_temperature()`, `now` the current instant, `writeOk` the outcome of any
hardware write attempted this tick.  The decision flags are computed from the
state after recording `current_temp`, exactly as in the source, where they
are read under one lock before the writes happen. -/
def monitor_tick (st : DaemonState) (sensor : Except String Int) (now : Nat)
    (writeOk : Bool) : DaemonState × List HardwareFanMode :=
  match sensor with
  | Except.error _ => (st, [])
  | Except.ok current_temp =>
    let st0 := { st with current_temp := some current_temp }
    let maxStep :=
      if should_handle_max_mode st0 now then handle_max_mode st0 now writeOk
      else (st0, [])
    let st1 := maxStep.1
    let autoStep :=
      if should_handle_auto_mode st0 then
        if st1.actual_mode ≠ HardwareFanMode.Max then
          auto_tick_bios st1 current_temp now writeOk
        else
          auto_tick_max st1 current_temp now writeOk
      else (st1, [])
    (autoStep.1, maxStep.2 ++ autoStep.2)

/-- Run a sequence of successful-sensor monitor ticks; each entry is
(temperature in millidegrees, instant, write outcome). -/
def runTicks (st : DaemonState) : List (Int × Nat × Bool) → DaemonState
  | [] => st
  | e :: rest => runTicks (monitor_tick st (Except.ok e.1) e.2.1 e.2.2).1 rest

/-- Rust `str::split_whitespace`: splits on whitespace runs, yielding no
empty tokens.  `acc` is the current in-progress token, reversed. -/
def splitWhitespaceAux : List Char → List Char → List String
  | [], acc => if acc = [] then [] else [String.mk acc.reverse]
  | c :: cs, acc =>
      if c.isWhitespace then
        if acc = [] then splitWhitespaceAux cs []
        else String.mk acc.reverse :: splitWhitespaceAux cs []
      else splitWhitespaceAux cs (c :: acc)

/-- Rust `request.split_whitespace().collect()` in `handle_client_request`. -/
def tokenize (request : String) : List String :=
  splitWhitespaceAux request.data []

/-- Function `handle_client_request` (lines 159-195 of `omenix-daemon.rs`).  Returns
the command's `Result<String, String>` together with the (possibly mutated)
shared state.  `sensor`, `now`, `writeOk` parametrise the effects of a `set`
or `set_performance` command as in `set_fan_mode`. -/
def handle_client_request (request : String) (st : DaemonState)
    (sensor : Except String Int) (now : Nat) (writeOk : Bool) :
    Except String String × DaemonState :=
  match tokenize request with
  | ["set", mode_str] =>
      match FanMode.fromStr mode_str with
      | Except.error _ => (Except.error ("Invalid fan mode"), st)
      | Except.ok mode =>
          match set_fan_mode st mode sensor now writeOk with
          | (st1, Except.ok _) =>
              (Except.ok ("Fan mode set to: " ++ mode.toDisplay), st1)
          | (st1, Except.error e) => (Except.error e, st1)
  | ["set_performance", mode_str] =>
      match PerformanceMode.fromStr mode_str with
      | Except.error _ => (Except.error ("Invalid performance mode"), st)
      | Except.ok mode =>
          match set_performance_mode st mode writeOk with
          | (st1, Except.ok _) =>
              (Except.ok ("Performance mode set to: " ++ mode.toDisplay), st1)
          | (st1, Except.error e) => (Except.error e, st1)
  | ["status"] =>
      let temp_str :=
        match st.current_temp with
        | some temp => toString (Int.tdiv temp 1000) ++ "°C"
        | none => ("Unknown")
      (Except.ok ("Mode: " ++ st.user_mode.toDisplay
          ++ ", Actual: " ++ st.actual_mode.toDebug
          ++ ", Performance: " ++ st.performance_mode.toDisplay
          ++ ", Temp: " ++ temp_str), st)
  | _ =>
      (Except.error
        ("Invalid command. Use 'set <mode>', 'set_performance <mode>', or 'status'"),
       st)

/-- The grammar check of `handle_client_request`: `true` iff the request is
malformed (no command pattern matches) or its mode token is unparseable. -/
def requestMalformed (request : String) : Bool :=
  match tokenize request with
  | ["set", mode_str] =>
      match FanMode.fromStr mode_str with
      | Except.error _ => true
      | Except.ok _ => false
  | ["set_performance", mode_str] =>
      match PerformanceMode.fromStr mode_str with
      | Except.error _ => true
      | Except.ok _ => false
  | ["status"] => false
  | _ => true

/-- Function `handle_client` (lines 483-497 of `omenix-daemon.rs`): wraps the
request handler's result into the wire response (`"OK: ..."` / `"ERROR: ..."`
with a trailing newline). -/
def handle_client (request : String) (st : DaemonState)
    (sensor : Except String Int) (now : Nat) (writeOk : Bool) :
    String × DaemonState :=
  match handle_client_request request st sensor now writeOk with
  | (Except.ok resp, st1) => ("OK: " ++ resp ++ "\n", st1)
  | (Except.error err, st1) => ("ERROR: " ++ err ++ "\n", st1)

/-- The spec's invariant `monitoring_active ⇔ user_mode == Auto` on a state. -/
def monitoringInvariant (st : DaemonState) : Prop :=
  st.temp_monitoring_active = true ↔ st.user_mode = FanMode.Auto

/-- A state as produced by `set auto` on a cool system: `Auto`/`Bios`-resolved,
monitoring active, counters zero. -/
def autoBiosStart : DaemonState :=
  { DaemonState.new defaultConfig with temp_monitoring_active := true }

/-- An `Auto`-mode state resolved to `Max` with no recorded hardware write and
a configured 100 s re-assertion interval. -/
def autoMaxNoWrite : DaemonState :=
  { DaemonState.new { defaultConfig with max_fan_write_interval := some 100 } with
      temp_monitoring_active := true
      actual_mode := HardwareFanMode.Max }

/-- An `Auto`-mode state resolved to `Max` whose last hardware write (instant 0)
is overdue against a configured 50 s re-assertion interval. -/
def autoMaxDue : DaemonState :=
  { DaemonState.new { defaultConfig with max_fan_write_interval := some 50 } with
      temp_monitoring_active := true
      actual_mode := HardwareFanMode.Max
      last_fan_write := some 0 }

/-- An `Auto`/`Bios`-resolved state already holding two consecutive high
readings. -/
def twoHighsState : DaemonState :=
  { autoBiosStart with consecutive_high_temps := 2 }

/-- Fields preserved by the user-`Max` rewrite block. -/
theorem handle_max_mode_preserves (st : DaemonState) (now : Nat) (w : Bool) :
    (handle_max_mode st now w).1.user_mode = st.user_mode
    ∧ (handle_max_mode st now w).1.performance_mode = st.performance_mode
    ∧ (handle_max_mode st now w).1.temp_monitoring_active
        = st.temp_monitoring_active
    ∧ (handle_max_mode st now w).1.consecutive_high_temps
        = st.consecutive_high_temps
    ∧ (handle_max_mode st now w).1.consecutive_low_temps
        = st.consecutive_low_temps
    ∧ (handle_max_mode st now w).1.current_temp = st.current_temp
    ∧ (handle_max_mode st now w).1.config = st.config := by
  cases w <;> simp [handle_max_mode]

/-- Fields preserved by the `Auto`/`Bios`-resolved branch. -/
theorem auto_tick_bios_preserves (st : DaemonState) (t : Int) (now : Nat)
    (w : Bool) :
    (auto_tick_bios st t now w).1.user_mode = st.user_mode
    ∧ (auto_tick_bios st t now w).1.performance_mode = st.performance_mode
    ∧ (auto_tick_bios st t now w).1.temp_monitoring_active
        = st.temp_monitoring_active
    ∧ (auto_tick_bios st t now w).1.consecutive_low_temps
        = st.consecutive_low_temps
    ∧ (auto_tick_bios st t now w).1.current_temp = st.current_temp
    ∧ (auto_tick_bios st t now w).1.config = st.config := by
  simp only [auto_tick_bios]
  split_ifs <;> simp

/-- Fields preserved by the `Auto`/`Max`-resolved branch. -/
theorem auto_tick_max_preserves (st : DaemonState) (t : Int) (now : Nat)
    (w : Bool) :
    (auto_tick_max st t now w).1.user_mode = st.user_mode
    ∧ (auto_tick_max st t now w).1.performance_mode = st.performance_mode
    ∧ (auto_tick_max st t now w).1.temp_monitoring_active
        = st.temp_monitoring_active
    ∧ (auto_tick_max st t now w).1.consecutive_high_temps
        = st.consecutive_high_temps
    ∧ (auto_tick_max st t now w).1.current_temp = st.current_temp
    ∧ (auto_tick_max st t now w).1.config = st.config := by
  simp only [auto_tick_max]
  split_ifs <;> simp

/-- A monitor tick never changes `user_mode`, `performance_mode`, the
monitoring flag or the configuration. -/
theorem monitor_tick_preserves (st : DaemonState) (s : Except String Int)
    (now : Nat) (w : Bool) :
    (monitor_tick st s now w).1.user_mode = st.user_mode
    ∧ (monitor_tick st s now w).1.performance_mode = st.performance_mode
    ∧ (monitor_tick st s now w).1.temp_monitoring_active
        = st.temp_monitoring_active
    ∧ (monitor_tick st s now w).1.config = st.config := by
  cases s with
  | error e => exact ⟨rfl, rfl, rfl, rfl⟩
  | ok t =>
    simp only [monitor_tick]
    split_ifs <;>
      simp [handle_max_mode_preserves, auto_tick_bios_preserves,
        auto_tick_max_preserves]

/-- Under user-mode `Auto` the periodic user-`Max` rewrite is off. -/
theorem should_handle_max_mode_of_auto (st : DaemonState) (now : Nat)
    (h : st.user_mode = FanMode.Auto) :
    should_handle_max_mode st now = false := by
  simp [should_handle_max_mode, h]

/-- With no configured re-assertion interval the periodic user-`Max` rewrite
is off. -/
theorem should_handle_max_mode_of_none (st : DaemonState) (now : Nat)
    (h : st.config.max_fan_write_interval = none) :
    should_handle_max_mode st now = false := by
  simp [should_handle_max_mode, h]

/-- With no configured re-assertion interval the `Auto`-mode rewrite is off.
-/
theorem should_rewrite_max_of_none (st : DaemonState) (now : Nat)
    (h : st.config.max_fan_write_interval = none) :
    should_rewrite_max st now = false := by
  simp [should_rewrite_max, h]

/-- With no recorded hardware write the `Auto`-mode rewrite is off. -/
theorem should_rewrite_max_of_no_write (st : DaemonState) (now : Nat)
    (h : st.last_fan_write = none) :
    should_rewrite_max st now = false := by
  cases hi : st.config.max_fan_write_interval <;>
    simp [should_rewrite_max, h, hi]

/-- A failed write in the user-`Max` rewrite block commits nothing. -/
theorem handle_max_mode_false (st : DaemonState) (now : Nat) :
    handle_max_mode st now false = (st, [HardwareFanMode.Max]) := rfl

/-- A failed write in the `Auto`/`Bios` branch does not advance the hardware
mode or the timestamp. -/
theorem auto_tick_bios_false (st : DaemonState) (t : Int) (now : Nat) :
    (auto_tick_bios st t now false).1.actual_mode = st.actual_mode
    ∧ (auto_tick_bios st t now false).1.last_fan_write = st.last_fan_write := by
  simp only [auto_tick_bios]
  split_ifs <;> simp_all

/-- A failed write in the `Auto`/`Max` branch does not advance the hardware
mode or the timestamp. -/
theorem auto_tick_max_false (st : DaemonState) (t : Int) (now : Nat) :
    (auto_tick_max st t now false).1.actual_mode = st.actual_mode
    ∧ (auto_tick_max st t now false).1.last_fan_write = st.last_fan_write := by
  simp only [auto_tick_max]
  split_ifs <;> simp_all

/-- If the `Auto`/`Bios` branch flips the hardware mode, it zeroes the high
counter. -/
theorem auto_tick_bios_changed (st : DaemonState) (t : Int) (now : Nat)
    (w : Bool) (ha : st.actual_mode = HardwareFanMode.Bios)
    (hflip : (auto_tick_bios st t now w).1.actual_mode = HardwareFanMode.Max) :
    (auto_tick_bios st t now w).1.consecutive_high_temps = 0 := by
  simp only [auto_tick_bios] at hflip ⊢
  split_ifs at hflip ⊢ <;> simp_all

/-- If the `Auto`/`Max` branch flips the hardware mode, it zeroes the low
counter. -/
theorem auto_tick_max_changed (st : DaemonState) (t : Int) (now : Nat)
    (w : Bool) (ha : st.actual_mode = HardwareFanMode.Max)
    (hflip : (auto_tick_max st t now w).1.actual_mode = HardwareFanMode.Bios) :
    (auto_tick_max st t now w).1.consecutive_low_temps = 0 := by
  simp only [auto_tick_max] at hflip ⊢
  split_ifs at hflip ⊢ <;> simp_all

/-- A tick whose hardware write fails advances neither `actual_mode` nor
`last_fan_write`. -/
theorem monitor_tick_false_commits_nothing (st : DaemonState) (t : Int)
    (now : Nat) :
    (monitor_tick st (Except.ok t) now false).1.actual_mode = st.actual_mode
    ∧ (monitor_tick st (Except.ok t) now false).1.last_fan_write
        = st.last_fan_write := by
  simp only [monitor_tick]
  split_ifs <;>
    simp [handle_max_mode_false, auto_tick_bios_false, auto_tick_max_false]

/-- A tick with a successful sensor read records the temperature. -/
theorem monitor_tick_current (st : DaemonState) (t : Int) (now : Nat)
    (w : Bool) :
    (monitor_tick st (Except.ok t) now w).1.current_temp = some t := by
  simp only [monitor_tick]
  split_ifs <;>
    simp [handle_max_mode_preserves, auto_tick_bios_preserves,
      auto_tick_max_preserves]

/-- C1 counterexample: starting from the freshly initialised daemon state,
a `set max` command whose hardware write fails returns an error, yet the
in-memory state has changed (`user_mode` is now `Max`); likewise a failing
`set_performance balanced` command leaves `performance_mode` changed.  This
refutes the claim that the state is left unchanged when the write fails. -/
theorem c1_cex :
    (set_fan_mode (DaemonState.new defaultConfig) FanMode.Max
        (Except.error ("no sensor")) 7 false).2
      = Except.error ("Failed to write fan mode")
    ∧ (set_fan_mode (DaemonState.new defaultConfig) FanMode.Max
        (Except.error ("no sensor")) 7 false).1.user_mode = FanMode.Max
    ∧ (DaemonState.new defaultConfig).user_mode = FanMode.Auto
    ∧ (set_performance_mode (DaemonState.new defaultConfig)
        PerformanceMode.Balanced false).2
      = Except.error ("Failed to write performance mode")
    ∧ (set_performance_mode (DaemonState.new defaultConfig)
        PerformanceMode.Balanced false).1.performance_mode
      = PerformanceMode.Balanced
    ∧ (DaemonState.new defaultConfig).performance_mode
      = PerformanceMode.Performance :=
  ⟨rfl, by decide, by decide, rfl, by decide, by decide⟩

/-- C1 amended: `set` and `set_performance` commit the new mode to the shared
state before attempting the hardware write, so the resulting in-memory state
is independent of the write outcome; only the command's returned result
reflects a failed write. -/
theorem c1_amended (st : DaemonState) (m : FanMode) (s : Except String Int)
    (now : Nat) (w : Bool) (p : PerformanceMode) :
    (set_fan_mode st m s now w).1 = (set_fan_mode st m s now true).1
    ∧ ((set_fan_mode st m s now w).2 = Except.ok () ↔ w = true)
    ∧ (set_performance_mode st p w).1 = (set_performance_mode st p true).1
    ∧ ((set_performance_mode st p w).2 = Except.ok () ↔ w = true) := by
  cases w <;> simp [set_fan_mode, set_performance_mode]

/-- C2 counterexample: with the low hysteresis counter at 5, issuing
`set bios` then `set auto` (both writes succeeding) leaves
`consecutive_low_temps` at 5, not 0: `set` commands zero only the high
counter. -/
theorem c2_cex :
    (set_fan_mode
        (set_fan_mode
          { DaemonState.new defaultConfig with consecutive_low_temps := 5 }
          FanMode.Bios (Except.ok 50000) 0 true).1
        FanMode.Auto (Except.ok 50000) 1 true).1.consecutive_low_temps = 5
    ∧ ¬ (set_fan_mode
        (set_fan_mode
          { DaemonState.new defaultConfig with consecutive_low_temps := 5 }
          FanMode.Bios (Except.ok 50000) 0 true).1
        FanMode.Auto (Except.ok 50000) 1 true).1.consecutive_low_temps = 0 := by
  decide

/-- C2 amended: every `set` command zeroes `consecutive_high_temps` but leaves
`consecutive_low_temps` untouched; a monitor flip to `Max` zeroes only the
high counter and a monitor flip to `Bios` zeroes only the low counter, each
leaving the other counter unchanged. -/
theorem c2_amended (st : DaemonState) (m : FanMode) (s : Except String Int)
    (now : Nat) (w : Bool) (t : Int) (n2 : Nat) (w2 : Bool) :
    (set_fan_mode st m s now w).1.consecutive_high_temps = 0
    ∧ (set_fan_mode st m s now w).1.consecutive_low_temps
        = st.consecutive_low_temps
    ∧ (st.user_mode = FanMode.Auto →
        st.actual_mode = HardwareFanMode.Bios →
        (monitor_tick st (Except.ok t) n2 w2).1.actual_mode = HardwareFanMode.Max →
        (monitor_tick st (Except.ok t) n2 w2).1.consecutive_high_temps = 0
          ∧ (monitor_tick st (Except.ok t) n2 w2).1.consecutive_low_temps
              = st.consecutive_low_temps)
    ∧ (st.user_mode = FanMode.Auto →
        st.actual_mode = HardwareFanMode.Max →
        (monitor_tick st (Except.ok t) n2 w2).1.actual_mode = HardwareFanMode.Bios →
        (monitor_tick st (Except.ok t) n2 w2).1.consecutive_low_temps = 0
          ∧ (monitor_tick st (Except.ok t) n2 w2).1.consecutive_high_temps
              = st.consecutive_high_temps) := by
  refine ⟨?_, ?_, ?_, ?_⟩
  · cases m <;> cases w <;> simp [set_fan_mode]
  · cases m <;> cases w <;> simp [set_fan_mode]
  · intro hu ha hflip
    have hshm := should_handle_max_mode_of_auto
      { st with current_temp := some t } n2 hu
    simp only [monitor_tick, hshm, Bool.false_eq_true, if_false] at hflip ⊢
    split_ifs at hflip ⊢ with hsha hact
    · exact ⟨auto_tick_bios_changed _ t n2 w2 ha hflip,
        (auto_tick_bios_preserves _ t n2 w2).2.2.2.1⟩
    · exact absurd (show ({ st with current_temp := some t } :
          DaemonState).actual_mode = HardwareFanMode.Max from not_not.mp hact)
        (by simp [ha])
    · exact absurd (by simpa using hflip) (by simp [ha])
  · intro hu ha hflip
    have hshm := should_handle_max_mode_of_auto
      { st with current_temp := some t } n2 hu
    simp only [monitor_tick, hshm, Bool.false_eq_true, if_false] at hflip ⊢
    split_ifs at hflip ⊢ with hsha hact
    · exact absurd (show ({ st with current_temp := some t } :
          DaemonState).actual_mode = HardwareFanMode.Max from ha) hact
    · exact ⟨auto_tick_max_changed _ t n2 w2 ha hflip,
        (auto_tick_max_preserves _ t n2 w2).2.2.2.1⟩
    · exact absurd (by simpa using hflip) (by simp [ha])

/-- C2 witness: the amended counter behaviour at concrete inputs — a `set`
command zeroes the high counter and keeps a low counter of 5, a monitor flip
to `Max` zeroes the high counter and keeps a low counter of 7, and a monitor
flip to `Bios` zeroes the low counter and keeps a high counter of 4. -/
theorem c2_witness :
    (set_fan_mode { autoBiosStart with consecutive_low_temps := 5 }
        FanMode.Bios (Except.ok 50000) 0 true).1.consecutive_high_temps = 0
    ∧ (set_fan_mode { autoBiosStart with consecutive_low_temps := 5 }
        FanMode.Bios (Except.ok 50000) 0 true).1.consecutive_low_temps = 5
    ∧ (monitor_tick
        { autoBiosStart with
            consecutive_high_temps := 2
            consecutive_low_temps := 7 }
        (Except.ok 76000) 1 true).1.consecutive_high_temps = 0
    ∧ (monitor_tick
        { autoBiosStart with
            consecutive_high_temps := 2
            consecutive_low_temps := 7 }
        (Except.ok 76000) 1 true).1.consecutive_low_temps = 7
    ∧ (monitor_tick
        { autoBiosStart with
            actual_mode := HardwareFanMode.Max
            consecutive_high_temps := 4
            consecutive_low_temps := 2 }
        (Except.ok 65000) 1 true).1.consecutive_low_temps = 0
    ∧ (monitor_tick
        { autoBiosStart with
            actual_mode := HardwareFanMode.Max
            consecutive_high_temps := 4
            consecutive_low_temps := 2 }
        (Except.ok 65000) 1 true).1.consecutive_high_temps = 4 := by
  have h1 := c2_amended { autoBiosStart with consecutive_low_temps := 5 }
    FanMode.Bios (Except.ok 50000) 0 true 0 0 true
  have h2 := (c2_amended
    { autoBiosStart with
        consecutive_high_temps := 2
        consecutive_low_temps := 7 }
    FanMode.Bios (Except.ok 50000) 0 true 76000 1 true).2.2.1
    rfl rfl (by decide)
  have h3 := (c2_amended
    { autoBiosStart with
        actual_mode := HardwareFanMode.Max
        consecutive_high_temps := 4
        consecutive_low_temps := 2 }
    FanMode.Bios (Except.ok 50000) 0 true 65000 1 true).2.2.2
    rfl rfl (by decide)
  exact ⟨h1.1, h1.2.1, h2.1, h2.2, h3.1, h3.2⟩

/-- C7 counterexample: in `Auto`/`Bios` with two recorded high readings, a
tick reading 76°C attempts the switch to `Max`; when that write fails, the
high counter has still advanced from 2 to 3 — the tick does not leave the
hysteresis counters exactly as they were. -/
theorem c7_cex :
    twoHighsState.consecutive_high_temps = 2
    ∧ (monitor_tick twoHighsState (Except.ok 76000) 0 false).2
        = [HardwareFanMode.Max]
    ∧ (monitor_tick twoHighsState (Except.ok 76000) 0 false).1.consecutive_high_temps
        = 3 := by
  decide

/-- C7 amended: a tick whose sensor read fails leaves the state completely
unchanged (and attempts no write); a tick whose hardware write fails leaves
`user_mode`, `actual_mode`, `performance_mode`, `last_fan_write` and the
monitoring flag unchanged and records the temperature, but any hysteresis
counter increment performed earlier in that tick persists. -/
theorem c7_amended (st : DaemonState) (e : String) (t : Int) (now : Nat)
    (w : Bool) :
    monitor_tick st (Except.error e) now w = (st, [])
    ∧ (monitor_tick st (Except.ok t) now false).1.user_mode = st.user_mode
    ∧ (monitor_tick st (Except.ok t) now false).1.actual_mode = st.actual_mode
    ∧ (monitor_tick st (Except.ok t) now false).1.performance_mode
        = st.performance_mode
    ∧ (monitor_tick st (Except.ok t) now false).1.last_fan_write
        = st.last_fan_write
    ∧ (monitor_tick st (Except.ok t) now false).1.temp_monitoring_active
        = st.temp_monitoring_active
    ∧ (monitor_tick st (Except.ok t) now false).1.current_temp = some t := by
  exact ⟨rfl,
    (monitor_tick_preserves st (Except.ok t) now false).1,
    (monitor_tick_false_commits_nothing st t now).1,
    (monitor_tick_preserves st (Except.ok t) now false).2.1,
    (monitor_tick_false_commits_nothing st t now).2,
    (monitor_tick_preserves st (Except.ok t) now false).2.2.1,
    monitor_tick_current st t now false⟩

/-- C10: when a `set auto` command's temperature read fails, the immediate
hardware mode resolves to `Bios`; the command's outcome depends only on the
hardware write, and the whole command behaves exactly as it would on a
reading not above the high threshold. -/
theorem c10_sensor_error_resolves_bios (st : DaemonState) (e : String)
    (now : Nat) (w : Bool) :
    (set_fan_mode st FanMode.Auto (Except.error e) now w).1.actual_mode
      = HardwareFanMode.Bios
    ∧ (set_fan_mode st FanMode.Auto (Except.error e) now w).2.isOk = w
    ∧ (∀ t : Int, t ≤ st.config.temp_threshold_high * 1000 →
        set_fan_mode st FanMode.Auto (Except.error e) now w
          = set_fan_mode st FanMode.Auto (Except.ok t) now w) := by
  refine ⟨?_, ?_, ?_⟩
  · cases w <;> simp [set_fan_mode]
  · cases w <;> simp [set_fan_mode, Except.isOk, Except.toBool]
  · intro t ht
    simp [set_fan_mode, if_neg (not_lt.mpr ht)]

/-- C10 witness: instantiated at the default startup state with a failed
sensor read, a reading of 70°C (not above the 75°C threshold), and a
successful write. -/
theorem c10_witness :
    (set_fan_mode (DaemonState.new defaultConfig) FanMode.Auto
        (Except.error ("no sensor")) 3 true).1.actual_mode = HardwareFanMode.Bios
    ∧ set_fan_mode (DaemonState.new defaultConfig) FanMode.Auto
        (Except.error ("no sensor")) 3 true
      = set_fan_mode (DaemonState.new defaultConfig) FanMode.Auto
        (Except.ok 70000) 3 true :=
  ⟨(c10_sensor_error_resolves_bios (DaemonState.new defaultConfig)
      "no sensor" 3 true).1,
   (c10_sensor_error_resolves_bios (DaemonState.new defaultConfig)
      "no sensor" 3 true).2.2 70000 (by decide)⟩

/-- Every `set` command leaves the state satisfying the monitoring
invariant. -/
theorem set_fan_mode_invariant (st : DaemonState) (m : FanMode)
    (s : Except String Int) (now : Nat) (w : Bool) :
    monitoringInvariant (set_fan_mode st m s now w).1 := by
  cases m <;> cases w <;> simp [set_fan_mode, monitoringInvariant]

/-- Command `set_performance` preserves the monitoring invariant. -/
theorem set_performance_mode_invariant (st : DaemonState)
    (p : PerformanceMode) (w : Bool) (h : monitoringInvariant st) :
    monitoringInvariant (set_performance_mode st p w).1 := by
  cases w <;> simpa [set_performance_mode, monitoringInvariant] using h

/-- A monitor tick preserves the monitoring invariant. -/
theorem monitor_tick_invariant (st : DaemonState) (s : Except String Int)
    (now : Nat) (w : Bool) (h : monitoringInvariant st) :
    monitoringInvariant (monitor_tick st s now w).1 := by
  have hp := monitor_tick_preserves st s now w
  unfold monitoringInvariant at h ⊢
  rw [hp.1, hp.2.2.1]
  exact h

/-- The state produced by a client request is either untouched or the result
of the corresponding `set` operation. -/
theorem handle_client_request_state (req : String) (st : DaemonState)
    (s : Except String Int) (now : Nat) (w : Bool) :
    (handle_client_request req st s now w).2 = st
    ∨ (∃ m, (handle_client_request req st s now w).2
        = (set_fan_mode st m s now w).1)
    ∨ (∃ p, (handle_client_request req st s now w).2
        = (set_performance_mode st p w).1) := by
  simp only [handle_client_request]
  split
  · split
    · exact Or.inl rfl
    · rename_i mode hfm
      split <;> rename_i heq
      · exact Or.inr (Or.inl ⟨mode, by rw [heq]⟩)
      · exact Or.inr (Or.inl ⟨mode, by rw [heq]⟩)
  · split
    · exact Or.inl rfl
    · rename_i mode hfm
      split <;> rename_i heq
      · exact Or.inr (Or.inr ⟨mode, by rw [heq]⟩)
      · exact Or.inr (Or.inr ⟨mode, by rw [heq]⟩)
  · exact Or.inl rfl
  · exact Or.inl rfl

/-- The wire wrapper does not change the state produced by the request
handler. -/
theorem handle_client_state (req : String) (st : DaemonState)
    (s : Except String Int) (now : Nat) (w : Bool) :
    (handle_client req st s now w).2
      = (handle_client_request req st s now w).2 := by
  simp only [handle_client]
  split <;> simp_all

/-- C3 counterexample: the state constructed by `DaemonState::new` at daemon
startup has `user_mode = Auto` but `temp_monitoring_active = false`, so the
claimed invariant `monitoring_active ⇔ user_mode == Auto` does not hold in
the state created at startup. -/
theorem c3_cex : ¬ monitoringInvariant (DaemonState.new defaultConfig) := by
  intro h
  exact absurd (h.mpr rfl) (by simp [DaemonState.new])

/-- C3 amended: the invariant `monitoring_active ⇔ user_mode == Auto` is
established by every `set` command (in particular by the initial
`set_fan_mode(Auto)` performed in `main`) and preserved by `set_performance`,
by every monitor tick and by every client request; it does not hold in the
raw state constructed by `DaemonState::new`, which pairs `user_mode = Auto`
with an inactive monitoring flag. -/
theorem c3_amended (st : DaemonState) (m : FanMode) (s : Except String Int)
    (now : Nat) (w : Bool) (p : PerformanceMode) (req : String) :
    monitoringInvariant (set_fan_mode st m s now w).1
    ∧ (monitoringInvariant st →
        monitoringInvariant (set_performance_mode st p w).1)
    ∧ (monitoringInvariant st →
        monitoringInvariant (monitor_tick st s now w).1)
    ∧ (monitoringInvariant st →
        monitoringInvariant (handle_client req st s now w).2) := by
  refine ⟨set_fan_mode_invariant st m s now w,
    set_performance_mode_invariant st p w,
    monitor_tick_invariant st s now w, ?_⟩
  intro h
  rw [handle_client_state]
  rcases handle_client_request_state req st s now w with h1 | ⟨m2, h1⟩ | ⟨p2, h1⟩ <;>
    rw [h1]
  · exact h
  · exact set_fan_mode_invariant st m2 s now w
  · exact set_performance_mode_invariant st p2 w h

/-- C3 witness: the amended invariant at concrete inputs — established by a
`set max` command from the startup state and preserved by a hot tick from an
`Auto`-monitoring state. -/
theorem c3_witness :
    monitoringInvariant (set_fan_mode (DaemonState.new defaultConfig)
      FanMode.Max (Except.ok 0) 0 true).1
    ∧ monitoringInvariant
        (monitor_tick autoBiosStart (Except.ok 76000) 1 true).1 := by
  constructor
  · exact (c3_amended (DaemonState.new defaultConfig) FanMode.Max
      (Except.ok 0) 0 true PerformanceMode.Balanced ("status")).1
  · exact (c3_amended autoBiosStart FanMode.Max (Except.ok 76000) 1 true
      PerformanceMode.Balanced ("status")).2.2.1 ⟨fun _ => rfl, fun _ => rfl⟩

/-- While `last_fan_write` is `none`, the `Auto`/`Max` branch neither sets a
timestamp nor writes `Max`. -/
theorem auto_tick_max_no_write (st : DaemonState) (t : Int) (now : Nat)
    (w : Bool) (h : st.last_fan_write = none) :
    (auto_tick_max st t now w).1.last_fan_write = none
    ∧ HardwareFanMode.Max ∉ (auto_tick_max st t now w).2 := by
  have hsrm := should_rewrite_max_of_no_write st now h
  simp only [auto_tick_max, hsrm, Bool.false_eq_true, if_false]
  split_ifs <;> simp_all

/-- When the `Auto`-mode rewrite is not due, the `Auto`/`Max` branch never
writes `Max`. -/
theorem auto_tick_max_writes (st : DaemonState) (t : Int) (now : Nat)
    (w : Bool) (h : should_rewrite_max st now = false) :
    HardwareFanMode.Max ∉ (auto_tick_max st t now w).2 := by
  simp only [auto_tick_max, h, Bool.false_eq_true, if_false]
  split_ifs <;> simp

/-- C4 counterexample: in `Auto` resolved to `Max` with a configured 100 s
interval but no prior hardware write, a tick at 60°C performs no rewrite, does
not refresh the timestamp, and still runs the low-threshold comparison
(incrementing the low counter) — the `Auto` branch does not treat a missing
`last_fan_write` as "due", unlike the user-`Max` rule. -/
theorem c4_cex :
    autoMaxNoWrite.user_mode = FanMode.Auto
    ∧ autoMaxNoWrite.temp_monitoring_active = true
    ∧ autoMaxNoWrite.actual_mode = HardwareFanMode.Max
    ∧ autoMaxNoWrite.last_fan_write = none
    ∧ autoMaxNoWrite.config.max_fan_write_interval = some 100
    ∧ (monitor_tick autoMaxNoWrite (Except.ok 60000) 5 true).2 = []
    ∧ (monitor_tick autoMaxNoWrite (Except.ok 60000) 5 true).1.last_fan_write
        = none
    ∧ (monitor_tick autoMaxNoWrite
          (Except.ok 60000) 5 true).1.consecutive_low_temps = 1 := by
  decide

/-- C4 amended: on an `Auto`-mode tick resolved to `Max` with a configured
interval, if the interval has elapsed since an existing `last_fan_write`, the
monitor rewrites `Max`, refreshes the timestamp on success, and skips the
low-threshold comparison for that tick; when no prior write exists the
rewrite is not due — the tick performs no `Max` write and leaves
`last_fan_write` clear. -/
theorem c4_amended (st : DaemonState) (t : Int) (now : Nat) (w : Bool)
    (i : Nat)
    (hu : st.user_mode = FanMode.Auto)
    (hm : st.temp_monitoring_active = true)
    (ha : st.actual_mode = HardwareFanMode.Max)
    (hi : st.config.max_fan_write_interval = some i) :
    (∀ lw, st.last_fan_write = some lw → i ≤ now - lw →
        monitor_tick st (Except.ok t) now w =
          (if w then
            { st with current_temp := some t, last_fan_write := some now }
           else { st with current_temp := some t },
           [HardwareFanMode.Max]))
    ∧ (st.last_fan_write = none →
        (monitor_tick st (Except.ok t) now w).1.last_fan_write = none
        ∧ HardwareFanMode.Max ∉ (monitor_tick st (Except.ok t) now w).2) := by
  have hshm := should_handle_max_mode_of_auto
    { st with current_temp := some t } now hu
  have hsha : should_handle_auto_mode { st with current_temp := some t }
      = true := by
    simp [should_handle_auto_mode, hu, hm]
  constructor
  · intro lw hlw hdue
    have hsrm : should_rewrite_max { st with current_temp := some t } now
        = true := by
      simp [should_rewrite_max, hi, hlw, hdue]
    simp only [monitor_tick, hshm, hsha, Bool.false_eq_true, if_false,
      if_true]
    rw [if_neg (by simp [ha])]
    simp only [auto_tick_max, hsrm, if_true]
    cases w <;> simp
  · intro hnone
    simp only [monitor_tick, hshm, hsha, Bool.false_eq_true, if_false,
      if_true]
    rw [if_neg (by simp [ha])]
    simpa using
      auto_tick_max_no_write { st with current_temp := some t } t now w hnone

/-- C4 witness: the amended behaviour at concrete inputs — a due rewrite
(last write at instant 0, 50 s interval, tick at instant 100) commits the new
timestamp and skips the low comparison, and a missing prior write suppresses
the rewrite. -/
theorem c4_witness :
    monitor_tick autoMaxDue (Except.ok 60000) 100 true =
      ({ autoMaxDue with
          current_temp := some 60000
          last_fan_write := some 100 }, [HardwareFanMode.Max])
    ∧ (monitor_tick autoMaxNoWrite (Except.ok 60000) 5 true).1.last_fan_write
        = none := by
  constructor
  · have h := (c4_amended autoMaxDue 60000 100 true 50 rfl rfl rfl rfl).1 0
      rfl (by decide)
    simpa using h
  · exact ((c4_amended autoMaxNoWrite 60000 5 true 100 rfl rfl rfl rfl).2
      rfl).1

/-- C8: with no configured re-assertion interval, a tick taken while the
resolved hardware mode is `Max` never attempts a `Max` write — neither the
user-`Max` periodic rewrite nor the `Auto`-mode rewrite fires, so no repeated
`Max` writes occur beyond the one that entered `Max`. -/
theorem c8_no_rewrite_when_unconfigured (st : DaemonState)
    (s : Except String Int) (now : Nat) (w : Bool)
    (hi : st.config.max_fan_write_interval = none)
    (ha : st.actual_mode = HardwareFanMode.Max) :
    HardwareFanMode.Max ∉ (monitor_tick st s now w).2 := by
  cases s with
  | error e => simp [monitor_tick]
  | ok t =>
    have hshm := should_handle_max_mode_of_none
      { st with current_temp := some t } now hi
    have hsrm := should_rewrite_max_of_none
      { st with current_temp := some t } now hi
    simp only [monitor_tick, hshm, Bool.false_eq_true, if_false]
    split_ifs with hsha hact
    · exact absurd (show ({ st with current_temp := some t } :
        DaemonState).actual_mode = HardwareFanMode.Max from ha) hact
    · simpa using
        auto_tick_max_writes { st with current_temp := some t } t now w hsrm
    · simp

/-- C8 witness: a hot tick in user-`Max`/`Max`-resolved state with the default
configuration (no interval) attempts no `Max` write. -/
theorem c8_witness :
    HardwareFanMode.Max ∉
      (monitor_tick
        { DaemonState.new defaultConfig with
            user_mode := FanMode.Max, actual_mode := HardwareFanMode.Max }
        (Except.ok 76000) 3 true).2 :=
  c8_no_rewrite_when_unconfigured
    { DaemonState.new defaultConfig with
        user_mode := FanMode.Max, actual_mode := HardwareFanMode.Max }
    (Except.ok 76000) 3 true rfl rfl

/-- A reading not above the high threshold leaves the hardware mode of the
`Auto`/`Bios` branch unchanged. -/
theorem auto_tick_bios_actual_of_not_high (st : DaemonState) (t : Int)
    (now : Nat) (w : Bool)
    (h : ¬ t > st.config.temp_threshold_high * 1000) :
    (auto_tick_bios st t now w).1.actual_mode = st.actual_mode := by
  simp only [auto_tick_bios, if_neg h]
  split_ifs <;> rfl

/-- A reading above the low threshold leaves the hardware mode of the
`Auto`/`Max` branch unchanged (the rewrite branch also keeps it). -/
theorem auto_tick_max_actual_of_not_low (st : DaemonState) (t : Int)
    (now : Nat) (w : Bool)
    (h : ¬ t ≤ st.config.temp_threshold_low * 1000) :
    (auto_tick_max st t now w).1.actual_mode = st.actual_mode := by
  simp only [auto_tick_max]
  split_ifs <;> simp_all

/-- A tick under `Auto` whose reading lies strictly between the two
thresholds never changes the hardware mode. -/
theorem monitor_tick_between (st : DaemonState) (t : Int) (now : Nat)
    (w : Bool) (hu : st.user_mode = FanMode.Auto)
    (hlo : st.config.temp_threshold_low * 1000 < t)
    (hhi : t < st.config.temp_threshold_high * 1000) :
    (monitor_tick st (Except.ok t) now w).1.actual_mode = st.actual_mode := by
  have hshm := should_handle_max_mode_of_auto
    { st with current_temp := some t } now hu
  simp only [monitor_tick, hshm, Bool.false_eq_true, if_false]
  split_ifs with hsha hact
  · exact auto_tick_bios_actual_of_not_high _ t now w (lt_asymm hhi)
  · exact auto_tick_max_actual_of_not_low _ t now w (not_le.mpr hlo)
  · rfl

/-- Running any trace of in-between readings under `Auto` never changes the
hardware mode. -/
theorem runTicks_between (samples : List (Int × Nat × Bool)) :
    ∀ st : DaemonState, st.user_mode = FanMode.Auto →
      (∀ e ∈ samples, st.config.temp_threshold_low * 1000 < e.1
        ∧ e.1 < st.config.temp_threshold_high * 1000) →
      (runTicks st samples).actual_mode = st.actual_mode := by
  induction samples with
  | nil => intro st hu hb; rfl
  | cons e rest ih =>
    intro st hu hb
    have hstep := monitor_tick_between st e.1 e.2.1 e.2.2 hu
      (hb e (List.mem_cons_self e rest)).1 (hb e (List.mem_cons_self e rest)).2
    have hpres := monitor_tick_preserves st (Except.ok e.1) e.2.1 e.2.2
    have hrun := ih (monitor_tick st (Except.ok e.1) e.2.1 e.2.2).1
      (by rw [hpres.1]; exact hu)
      (by intro x hx
          rw [hpres.2.2.2]
          exact hb x (List.mem_cons_of_mem e hx))
    calc (runTicks st (e :: rest)).actual_mode
        = (runTicks (monitor_tick st (Except.ok e.1) e.2.1 e.2.2).1
            rest).actual_mode := rfl
      _ = (monitor_tick st (Except.ok e.1) e.2.1 e.2.2).1.actual_mode := hrun
      _ = st.actual_mode := hstep

/-- C5: under `Auto`, for a trace whose samples all lie strictly between the
low and high thresholds, no hardware-mode transition ever occurs: after any
prefix of the trace the resolved hardware mode equals the initial one
(transitions would require `consecutive_high_temp_limit` samples strictly
above the high threshold, or `consecutive_low_temp_limit` samples at or below
the low one, and no such sample exists in the trace). -/
theorem c5_hysteresis_no_chatter (st : DaemonState)
    (samples pre suf : List (Int × Nat × Bool))
    (hu : st.user_mode = FanMode.Auto)
    (hb : ∀ e ∈ samples, st.config.temp_threshold_low * 1000 < e.1
        ∧ e.1 < st.config.temp_threshold_high * 1000)
    (hsplit : samples = pre ++ suf) :
    (runTicks st pre).actual_mode = st.actual_mode := by
  apply runTicks_between pre st hu
  intro e he
  refine hb e ?_
  rw [hsplit]
  exact List.mem_append_left suf he

/-- C5 witness: a one-sample trace at 72°C (between the default 70°C and
75°C thresholds) from the `Auto`/`Bios` monitoring state. -/
theorem c5_witness :
    (runTicks autoBiosStart [(72000, 0, true)]).actual_mode
      = autoBiosStart.actual_mode :=
  c5_hysteresis_no_chatter autoBiosStart [(72000, 0, true)]
    [(72000, 0, true)] [] rfl (by decide) rfl

/-- C6: with the default configuration (75°C high, 70°C low, both limits 3),
from `Auto`/`Bios`-resolved with zero counters: samples 76, 80, 77°C switch
the hardware mode to `Max`; continuing with 68, 65, 69°C switches it back to
`Bios`; a 72°C sample during the high run resets the high counter to zero
with the mode still `Bios`, and a 72°C sample during the low run resets the
low counter to zero with the mode still `Max`. -/
theorem c6_concrete_scenario :
    autoBiosStart.config = defaultConfig
    ∧ defaultConfig.temp_threshold_high = 75
    ∧ defaultConfig.temp_threshold_low = 70
    ∧ defaultConfig.consecutive_high_temp_limit = 3
    ∧ defaultConfig.consecutive_low_temp_limit = 3
    ∧ autoBiosStart.actual_mode = HardwareFanMode.Bios
    ∧ autoBiosStart.user_mode = FanMode.Auto
    ∧ (runTicks autoBiosStart
        [(76000, 1, true), (80000, 2, true), (77000, 3, true)]).actual_mode
      = HardwareFanMode.Max
    ∧ (runTicks autoBiosStart
        [(76000, 1, true), (80000, 2, true), (77000, 3, true),
         (68000, 4, true), (65000, 5, true), (69000, 6, true)]).actual_mode
      = HardwareFanMode.Bios
    ∧ runTicks autoBiosStart
        [(76000, 1, true), (80000, 2, true), (72000, 3, true)]
      = { autoBiosStart with
            consecutive_high_temps := 0
            current_temp := some 72000 }
    ∧ (runTicks autoBiosStart
        [(76000, 1, true), (80000, 2, true), (77000, 3, true),
         (68000, 4, true), (65000, 5, true),
         (72000, 6, true)]).consecutive_low_temps = 0
    ∧ (runTicks autoBiosStart
        [(76000, 1, true), (80000, 2, true), (77000, 3, true),
         (68000, 4, true), (65000, 5, true),
         (72000, 6, true)]).actual_mode = HardwareFanMode.Max := by
  decide

/-- Success responses begin with the characters `OK:`. -/
theorem ok_response_take3 (r : String) :
    ("OK: " ++ r ++ "\n").data.take 3 = "OK:".data := by
  cases r with
  | mk l => rfl

/-- Error responses begin with the characters `ERROR:`. -/
theorem err_response_take6 (e : String) :
    ("ERROR: " ++ e ++ "\n").data.take 6 = "ERROR:".data := by
  cases e with
  | mk l => rfl

/-- Error responses do not begin with `OK:`. -/
theorem err_response_not_ok (e : String) :
    ¬ ("ERROR: " ++ e ++ "\n").data.take 3 = "OK:".data := by
  cases e with
  | mk l =>
    intro h
    injection h with h1 _
    exact absurd h1 (by decide)

/-- Success responses do not begin with `ERROR:`. -/
theorem ok_response_not_err (r : String) :
    ¬ ("OK: " ++ r ++ "\n").data.take 6 = "ERROR:".data := by
  cases r with
  | mk l =>
    intro h
    injection h with h1 _
    exact absurd h1 (by decide)

/-- A malformed request is answered with some error and leaves the state
untouched. -/
theorem handle_client_request_malformed (req : String) (st : DaemonState)
    (s : Except String Int) (now : Nat) (w : Bool)
    (h : requestMalformed req = true) :
    ∃ msg, handle_client_request req st s now w = (Except.error msg, st) := by
  revert h
  simp only [requestMalformed, handle_client_request]
  split
  · split
    · exact fun _ => ⟨_, rfl⟩
    · exact fun h => absurd h (by simp)
  · split
    · exact fun _ => ⟨_, rfl⟩
    · exact fun h => absurd h (by simp)
  · exact fun h => absurd h (by simp)
  · exact fun _ => ⟨_, rfl⟩

/-- C9: a response begins with `OK:` exactly when the request was handled
successfully and begins with `ERROR:` exactly when it was not; a malformed
request or unparseable mode token is answered with an `ERROR:` response and
leaves the shared state unchanged, so a later `status` request returns the
same response as before. -/
theorem c9_protocol (req : String) (st : DaemonState)
    (s : Except String Int) (now : Nat) (w : Bool) :
    ((handle_client req st s now w).1.data.take 3 = "OK:".data
      ↔ (handle_client_request req st s now w).1.isOk = true)
    ∧ ((handle_client req st s now w).1.data.take 6 = "ERROR:".data
      ↔ (handle_client_request req st s now w).1.isOk = false)
    ∧ (requestMalformed req = true →
        (handle_client req st s now w).1.data.take 6 = "ERROR:".data
        ∧ (handle_client req st s now w).2 = st
        ∧ (handle_client ("status") (handle_client req st s now w).2 s now w).1
            = (handle_client ("status") st s now w).1) := by
  refine ⟨?_, ?_, ?_⟩
  · rcases hh : handle_client_request req st s now w with ⟨res, st1⟩
    cases res with
    | ok r =>
        simp [handle_client, hh, Except.isOk, Except.toBool, ok_response_take3]
    | error e =>
        simp [handle_client, hh, Except.isOk, Except.toBool,
          err_response_not_ok]
  · rcases hh : handle_client_request req st s now w with ⟨res, st1⟩
    cases res with
    | ok r =>
        simp [handle_client, hh, Except.isOk, Except.toBool,
          ok_response_not_err]
    | error e =>
        simp [handle_client, hh, Except.isOk, Except.toBool,
          err_response_take6]
  · intro h
    obtain ⟨msg, hm⟩ := handle_client_request_malformed req st s now w h
    refine ⟨?_, ?_, ?_⟩
    · simp [handle_client, hm, err_response_take6]
    · simp [handle_client, hm]
    · rw [show (handle_client req st s now w).2 = st by
        simp [handle_client, hm]]

/-- C9 witness: the concrete malformed request `frobnicate` is answered with
an `ERROR:`-prefixed response and leaves the startup state unchanged. -/
theorem c9_witness :
    (handle_client ("frobnicate") (DaemonState.new defaultConfig)
        (Except.ok 0) 0 true).1.data.take 6 = "ERROR:".data
    ∧ (handle_client ("frobnicate") (DaemonState.new defaultConfig)
        (Except.ok 0) 0 true).2 = DaemonState.new defaultConfig := by
  have h := (c9_protocol ("frobnicate") (DaemonState.new defaultConfig)
    (Except.ok 0) 0 true).2.2 (by decide)
  exact ⟨h.1, h.2.1⟩

end Omenix
